import Mathlib

/-
Verification development for the CodeDatasetMaker repository.

The repository ships a C test project (src/test_project) whose headers are
behavioral fixtures for a C header semantic-extraction engine: a preprocessor
conditional resolver, an include-guard classifier, and a declaration/layout
modeler.  The engine itself is not part of the shipped sources, so the engine
components below are modelled from the specification (each such definition's
doc comment starts with "Modelled from the spec:").  The fixture headers under
src/test_project/include are embedded as concrete data, translated line by
line from the C sources.
-/

namespace CDM

/-! ## Core data model -/

mutual

/-- Modelled from the spec: the `typeRef` of a Member (§3) — primitive,
pointer, array-of-T, function-pointer signature, nested anonymous aggregate,
inline anonymous enum, a `struct TAG` reference, or (for best-effort
continuation, §4.3) an unresolved member-macro invocation retained verbatim.
`structTagParam` is a placeholder for a function-like macro parameter inside
a macro body template; it only occurs in MacroTable entries, never in parsed
output. -/
inductive TypeRef : Type where
  | prim (name : String)
  | structTag (name : String)
  | structTagParam (p : String)
  | ptr (t : TypeRef)
  | arr (t : TypeRef) (extent : Option Nat)
  | fnPtr (ret : String) (params : List String)
  | anonStruct (ms : Members)
  | anonUnion (ms : Members)
  | anonEnum (cs : List (String × Int))
  | opaqueMacro (name : String) (args : List String)
  deriving DecidableEq

/-- Modelled from the spec: a Member of a struct/union (§3): `name`,
`typeRef`, and an optional `bitfieldWidth`. -/
inductive Member : Type where
  | mk (name : String) (ty : TypeRef) (bitWidth : Option Nat)
  deriving DecidableEq

/-- A member list, as its own inductive so that the aggregate type and its
member sequence can recurse mutually. -/
inductive Members : Type where
  | nil
  | cons (m : Member) (ms : Members)
  deriving DecidableEq

end

/-- Convert an ordinary list of members into the mutual-recursion-friendly
`Members` sequence. -/
def Members.ofList : List Member → Members
  | [] => .nil
  | m :: ms => .cons m (Members.ofList ms)

/-- The declared name of a member. -/
def Member.name : Member → String
  | .mk n _ _ => n

/-- The type reference of a member. -/
def Member.ty : Member → TypeRef
  | .mk _ t _ => t

/-- The declared bitfield width of a member, if any. -/
def Member.bitWidth : Member → Option Nat
  | .mk _ _ w => w

/-- Modelled from the spec: integer constant expressions appearing in `#if`
directives (§4.1).  The fixtures only exercise numerals, macro identifiers
and equality comparison, which is all the engine's constant folding needs. -/
inductive CExpr : Type where
  | num (n : Int)
  | var (name : String)
  | eq (a b : CExpr)
  deriving DecidableEq

/-- Modelled from the spec: a MacroDefinition body (§3).  Object-like macros
whose body is an integer constant expression carry it as a `CExpr` (`obj`);
other object-like bodies are kept as raw text (`objText`) or are empty
(`objEmpty`, the include-guard convention); function-like macros carry their
parameter list and either raw body text (`objText` analogue `fnText`) or,
for member-generator macros, a body template at parse-tree granularity
(`fnMembers`, modelling the spec's textual expansion of member blocks);
`symbolic` marks a macro whose value the caller left unresolved, which makes
conditionals over it keep all branches as alternatives (§4.1). -/
inductive MacroVal : Type where
  | obj (body : CExpr)
  | objText (body : String)
  | objEmpty
  | fnText (params : List String) (body : String)
  | fnMembers (params : List String) (body : TypeRef)
  | symbolic
  deriving DecidableEq

/-- Modelled from the spec: the MacroTable (§3), a name-to-definition mapping
mutated only by `#define`/`#undef` in document order. -/
abbrev MacroTable : Type := List (String × MacroVal)

/-- Look a name up in the macro table (first binding wins; `defineMacro`
keeps at most one binding per name). -/
def lookupM : MacroTable → String → Option MacroVal
  | [], _ => none
  | (m, v) :: t, n => if m = n then some v else lookupM t n

/-- Replace the (unique) binding of `n` in the table, keeping its position. -/
def replaceM : MacroTable → String → MacroVal → MacroTable
  | [], _, _ => []
  | (m, v₀) :: t, n, v => if m = n then (n, v) :: t else (m, v₀) :: replaceM t n v

/-- Modelled from the spec: processing one `#define` (§3): a fresh name is
appended; redefinition with an identical body is a no-op; redefinition with a
different body overwrites in place (last-wins).  The returned Bool is true
exactly when a `RedefinitionWarning` diagnostic must be emitted. -/
def defineMacro (t : MacroTable) (n : String) (v : MacroVal) :
    MacroTable × Bool :=
  match lookupM t n with
  | none => (t ++ [(n, v)], false)
  | some v₀ => if v₀ = v then (t, false) else (replaceM t n v, true)

/-- Modelled from the spec: processing one `#undef` (§3). -/
def undefMacro (t : MacroTable) (n : String) : MacroTable :=
  t.filter (fun p => !(p.1 = n : Bool))

/-- Modelled from the spec: evaluation of a `#if` constant expression over
the MacroTable (§4.1): macro substitution then integer arithmetic, with
identifiers not present in the table evaluating to 0.  A macro the caller
marked `symbolic` yields `none` (condition unresolved); the `Nat` argument is
substitution fuel, bounding macro-chain depth. -/
def evalE : Nat → MacroTable → CExpr → Option Int
  | 0, _, _ => none
  | _ + 1, _, .num n => some n
  | fuel + 1, tbl, .var x =>
    match lookupM tbl x with
    | none => some 0
    | some (.obj e) => evalE fuel tbl e
    | some .symbolic => none
    | some _ => some 0
  | fuel + 1, tbl, .eq a b =>
    match evalE fuel tbl a, evalE fuel tbl b with
    | some x, some y => some (if x = y then (1 : Int) else 0)
    | _, _ => none

/-- Substitution fuel used by the resolver; the fixtures' macro chains are at
most two deep, so any generous constant is exact. -/
def evalFuel : Nat := 1000

/-- Modelled from the spec: a `branchTaken` value (§3),
True / False / Unknown. -/
inductive Tri : Type where
  | t
  | f
  | unknown
  deriving DecidableEq

/-- Three-valued negation. -/
def negTri : Tri → Tri
  | .t => .f
  | .f => .t
  | .unknown => .unknown

/-- Three-valued conjunction (false dominates). -/
def andTri : Tri → Tri → Tri
  | .f, _ => .f
  | .t, b => b
  | .unknown, .f => .f
  | .unknown, _ => .unknown

/-- Three-valued disjunction (true dominates). -/
def orTri : Tri → Tri → Tri
  | .t, _ => .t
  | .f, b => b
  | .unknown, .t => .t
  | .unknown, _ => .unknown

/-- Modelled from the spec: whether a name counts as defined for
`#ifdef`/`#ifndef` (§4.1); a caller-symbolic macro gives Unknown. -/
def definedTri (tbl : MacroTable) (n : String) : Tri :=
  match lookupM tbl n with
  | none => .f
  | some .symbolic => .unknown
  | some _ => .t

/-- Modelled from the spec: truth of a `#if` expression over the table
(§4.1); nonzero means taken, an unresolved (symbolic) operand gives
Unknown. -/
def exprTri (tbl : MacroTable) (e : CExpr) : Tri :=
  match evalE evalFuel tbl e with
  | none => .unknown
  | some v => if v = 0 then .f else .t

/-! ## Guard Classifier -/

/-- Kind of conditional opener directive. -/
inductive CondKind : Type where
  | ifdefK
  | ifndefK
  | ifK
  deriving DecidableEq

/-- Modelled from the spec: the result of guard classification (§4.2). -/
inductive GuardClass : Type where
  | IsGuard
  | IsRealMacro
  deriving DecidableEq

/-- Modelled from the spec: a GuardCandidate (§3): the opener directive's
kind and name, the names defined directly inside the wrapped region (in
document order), whether a matching `#endif` closes the frame the opener
opened, and whether the opener's name was already defined before the opener
(the "no other define reachable before it" structural condition). -/
structure GuardCandidate : Type where
  openerKind : CondKind
  openerName : String
  definesInBody : List String
  closedByMatchingEndif : Bool
  nameDefinedBefore : Bool
  deriving DecidableEq

/-- Modelled from the spec: the structural check of the guard decision
procedure (§4.2 step 1): the opener must be `#ifndef NAME` (an `#ifdef NAME`
opener — the inverted/incorrect pattern — is never guard-shaped), NAME must
not be defined before the opener, `#define NAME` must occur inside the
region, and a matching `#endif` must close the same frame. -/
def structurallyGuardShaped (c : GuardCandidate) : Bool :=
  match c.openerKind with
  | .ifndefK =>
    c.closedByMatchingEndif && !c.nameDefinedBefore
      && c.definesInBody.contains c.openerName
  | _ => false

/-- Modelled from the spec: the Guard Classifier (§4.2) — structure dominates
name: a structurally guard-shaped candidate is `IsGuard` whatever its name
shape, and anything else (including a malformed candidate, fail-open) is
`IsRealMacro`.  Name shape is advisory metadata only (`nameShapeAccepted`)
and is never consulted here. -/
def classifyGuard (c : GuardCandidate) : GuardClass :=
  if structurallyGuardShaped c then .IsGuard else .IsRealMacro

/-- Modelled from the spec: the advisory name-shape allow-list (§4.2
step 2): case-insensitive `FILE_H`, `_FILE_H_`, `FILE_H_`, `FILE_INC`,
`FILE_INCLUDE` built from the source file's base name.  Advisory metadata
for diagnostics only; classification never depends on it. -/
def nameShapeAccepted (base cand : String) : Bool :=
  let b := base.toLower
  let c := cand.toLower
  c == b ++ "_h" || c == "_" ++ b ++ "_h_" || c == b ++ "_h_"
    || c == b ++ "_inc" || c == b ++ "_include"

/-! ## Conditional Resolver -/

/-- Modelled from the spec: the recoverable diagnostics (§7). -/
inductive Diag : Type where
  | redefinitionWarning (name : String)
  | malformedGuardCandidate (name : String)
  | unsupportedArrayExtent (name : String)
  | unresolvedMemberMacro (name : String)
  deriving DecidableEq

/-- Modelled from the spec: the fatal errors (§7), each carrying the source
location (line number) of the structural defect. -/
inductive AnalysisError : Type where
  | unterminatedConditional (loc : Nat)
  | unmatchedDirective (loc : Nat)
  deriving DecidableEq

/-- Modelled from the spec: the condition labelling a conditional frame
(`conditionKind` plus `conditionExpr`, §3). -/
inductive CondLabel : Type where
  | ifdefL (name : String)
  | ifndefL (name : String)
  | ifL (e : CExpr)
  deriving DecidableEq

/-- Which branch of a frame a record describes: the positive branch, an
`#elif` branch (with its expression), or the `#else` branch. -/
inductive BranchTag : Type where
  | pos
  | elifB (e : CExpr)
  | elseB
  deriving DecidableEq

/-- One recorded branch of a conditional frame: its tag, its frame-local
taken status under the macro environment, and the payloads (e.g. struct
members) directly inside it. -/
structure BranchRec (α : Type) : Type where
  tag : BranchTag
  status : Tri
  payloads : List α
  deriving DecidableEq

/-- Modelled from the spec: the record of one whole conditional block — the
opening condition, its location, and ALL branches (active and inactive) as
alternative payload sets tagged by what selects them (§4.1). -/
structure CondRecord (α : Type) : Type where
  label : CondLabel
  loc : Nat
  branches : List (BranchRec α)
  deriving DecidableEq

/-- Modelled from the spec: one ConditionalFrame (§3) as the resolver keeps
it on its directive stack, extended with the bookkeeping the guard
classifier and the branch records need. -/
structure Frame (α : Type) : Type where
  label : CondLabel
  loc : Nat
  status : Tri
  prior : Tri
  tag : BranchTag
  defines : List String
  openerUndefined : Bool
  cur : List α
  branchAcc : List (BranchRec α)

/-- A line as the resolver sees it: a payload (code line / struct member) or
a preprocessor directive, each directive carrying its source line number. -/
inductive RLine (α : Type) : Type where
  | payload (a : α)
  | ifdefD (name : String) (loc : Nat)
  | ifndefD (name : String) (loc : Nat)
  | ifD (e : CExpr) (loc : Nat)
  | elifD (e : CExpr) (loc : Nat)
  | elseD (loc : Nat)
  | endifD (loc : Nat)
  | defineD (name : String) (v : MacroVal) (loc : Nat)
  | undefD (name : String) (loc : Nat)

/-- The resolver's running state. -/
structure RState (α : Type) : Type where
  table : MacroTable
  stack : List (Frame α)
  annotated : List (α × Bool)
  records : List (CondRecord α)
  guards : List (String × Bool)
  diags : List Diag

/-- Modelled from the spec: the resolver's output (§4.1): the final
MacroTable, the payload stream annotated active/inactive, the record of
every conditional block's alternatives, the names classified as include
guards (with the advisory name-shape flag), and the recoverable
diagnostics. -/
structure ResolveOut (α : Type) : Type where
  table : MacroTable
  annotated : List (α × Bool)
  records : List (CondRecord α)
  guards : List (String × Bool)
  diags : List Diag

/-- A payload is globally active exactly when every open frame's current
branch is taken (an empty stack is active). -/
def activeAll {α : Type} (stack : List (Frame α)) : Bool :=
  stack.all (fun fr => fr.status == Tri.t)

/-- Append a payload to the innermost frame's current branch. -/
def pushPayload {α : Type} (a : α) : List (Frame α) → List (Frame α)
  | [] => []
  | fr :: rest => { fr with cur := fr.cur ++ [a] } :: rest

/-- Record a processed `#define`'s name in the innermost frame (guard
classification input). -/
def noteDefine {α : Type} (n : String) : List (Frame α) → List (Frame α)
  | [] => []
  | fr :: rest => { fr with defines := fr.defines ++ [n] } :: rest

/-- Close the current branch of a frame into a `BranchRec`. -/
def closeBranch {α : Type} (fr : Frame α) : BranchRec α :=
  { tag := fr.tag, status := fr.status, payloads := fr.cur }

/-- Open a fresh frame for an opener directive. -/
def openFrame {α : Type} (label : CondLabel) (loc : Nat) (status : Tri)
    (openerUndefined : Bool) : Frame α :=
  { label := label, loc := loc, status := status, prior := .f, tag := .pos,
    defines := [], openerUndefined := openerUndefined, cur := [],
    branchAcc := [] }

/-- The guard candidate a popped frame presents to the classifier, if its
opener was `#ifdef`/`#ifndef` (an `#if` frame presents none). -/
def candidateOf {α : Type} (fr : Frame α) : Option GuardCandidate :=
  match fr.label with
  | .ifndefL n =>
    some { openerKind := .ifndefK, openerName := n,
           definesInBody := fr.defines, closedByMatchingEndif := true,
           nameDefinedBefore := !fr.openerUndefined }
  | .ifdefL n =>
    some { openerKind := .ifdefK, openerName := n,
           definesInBody := fr.defines, closedByMatchingEndif := true,
           nameDefinedBefore := !fr.openerUndefined }
  | .ifL _ => none

/-- Modelled from the spec: one resolver transition (§4.1).  Payloads are
annotated active/inactive; `#ifdef`/`#ifndef`/`#if` push a frame whose taken
status comes from the macro table; `#elif`/`#else` close the current branch
into the frame's record and re-evaluate activeness within the same frame;
`#endif` pops the frame, emits the full record of its branches, and submits
the frame to the Guard Classifier, suppression being recorded in `guards`;
`#define`/`#undef` mutate the table only in fully active regions, `#define`
emitting a `RedefinitionWarning` when it overwrites a different body.
`#elif`/`#else`/`#endif` with no open frame is the fatal
`UnmatchedDirective`. -/
def step {α : Type} (base : String) (st : RState α) :
    RLine α → Except AnalysisError (RState α)
  | .payload a =>
    .ok { st with annotated := st.annotated ++ [(a, activeAll st.stack)],
                  stack := pushPayload a st.stack }
  | .ifdefD n loc =>
    .ok { st with stack := openFrame (.ifdefL n) loc
                             (definedTri st.table n)
                             (lookupM st.table n).isNone :: st.stack }
  | .ifndefD n loc =>
    .ok { st with stack := openFrame (.ifndefL n) loc
                             (negTri (definedTri st.table n))
                             (lookupM st.table n).isNone :: st.stack }
  | .ifD e loc =>
    .ok { st with stack := openFrame (.ifL e) loc (exprTri st.table e) true
                             :: st.stack }
  | .elifD e loc =>
    match st.stack with
    | [] => .error (.unmatchedDirective loc)
    | fr :: rest =>
      let prior := orTri fr.prior fr.status
      .ok { st with stack := { fr with
                                 status := andTri (negTri prior)
                                             (exprTri st.table e),
                                 prior := prior, tag := .elifB e, cur := [],
                                 branchAcc := fr.branchAcc
                                                ++ [closeBranch fr] }
                               :: rest }
  | .elseD loc =>
    match st.stack with
    | [] => .error (.unmatchedDirective loc)
    | fr :: rest =>
      let prior := orTri fr.prior fr.status
      .ok { st with stack := { fr with
                                 status := negTri prior, prior := prior,
                                 tag := .elseB, cur := [],
                                 branchAcc := fr.branchAcc
                                                ++ [closeBranch fr] }
                               :: rest }
  | .endifD loc =>
    match st.stack with
    | [] => .error (.unmatchedDirective loc)
    | fr :: rest =>
      let rec₀ : CondRecord α :=
        { label := fr.label, loc := fr.loc,
          branches := fr.branchAcc ++ [closeBranch fr] }
      let guards :=
        match candidateOf fr with
        | some cand =>
          if classifyGuard cand = .IsGuard then
            st.guards ++ [(cand.openerName,
                           nameShapeAccepted base cand.openerName)]
          else st.guards
        | none => st.guards
      .ok { st with stack := rest, records := st.records ++ [rec₀],
                    guards := guards }
  | .defineD n v _loc =>
    if activeAll st.stack then
      let tw := defineMacro st.table n v
      .ok { st with table := tw.1, stack := noteDefine n st.stack,
                    diags := st.diags ++
                      (if tw.2 then [.redefinitionWarning n] else []) }
    else
      .ok st
  | .undefD n _loc =>
    if activeAll st.stack then
      .ok { st with table := undefMacro st.table n }
    else
      .ok st

/-- The resolver's initial state over a caller-seeded macro table (§6). -/
def initState {α : Type} (seed : MacroTable) : RState α :=
  { table := seed, stack := [], annotated := [], records := [], guards := [],
    diags := [] }

/-- Run the resolver over a whole line stream, stopping at the first fatal
error. -/
def runAll {α : Type} (base : String) :
    RState α → List (RLine α) → Except AnalysisError (RState α)
  | st, [] => .ok st
  | st, l :: ls =>
    match step base st l with
    | .error e => .error e
    | .ok st₁ => runAll base st₁ ls

/-- Package a finished state into the resolver's output. -/
def mkOut {α : Type} (st : RState α) : ResolveOut α :=
  { table := st.table, annotated := st.annotated, records := st.records,
    guards := st.guards, diags := st.diags }

/-- Modelled from the spec: end-of-input handling (§4.1, §7): a stream
exhausted with a frame still open is the fatal `UnterminatedConditional`
reported at that frame's opening directive. -/
def finishRun {α : Type} (st : RState α) : Except AnalysisError (ResolveOut α) :=
  match st.stack with
  | [] => .ok (mkOut st)
  | fr :: _ => .error (.unterminatedConditional fr.loc)

/-- Modelled from the spec: one whole analysis run (§4.1, §6, §7): process
the stream, then close out; a fatal error yields no output at all (no
partial SymbolTable). -/
def resolve {α : Type} (base : String) (seed : MacroTable)
    (lines : List (RLine α)) : Except AnalysisError (ResolveOut α) :=
  match runAll base (initState seed) lines with
  | .error e => .error e
  | .ok st => finishRun st

/-- The final macro table of a run ([] after a fatal error). -/
def tableOf {α : Type} : Except AnalysisError (ResolveOut α) → MacroTable
  | .ok o => o.table
  | .error _ => []

/-- The annotated payload stream of a run ([] after a fatal error). -/
def annotatedOf {α : Type} :
    Except AnalysisError (ResolveOut α) → List (α × Bool)
  | .ok o => o.annotated
  | .error _ => []

/-- The conditional-block records of a run ([] after a fatal error). -/
def recordsOf {α : Type} :
    Except AnalysisError (ResolveOut α) → List (CondRecord α)
  | .ok o => o.records
  | .error _ => []

/-- The names classified as include guards in a run. -/
def guardNamesOf {α : Type} :
    Except AnalysisError (ResolveOut α) → List String
  | .ok o => o.guards.map (fun p => p.1)
  | .error _ => []

/-- The diagnostics of a run ([] after a fatal error). -/
def diagsOf {α : Type} : Except AnalysisError (ResolveOut α) → List Diag
  | .ok o => o.diags
  | .error _ => []

/-- Modelled from the spec: the reported macro list (§4.2): the final macro
table with the classified include-guard names (and only them)
suppressed. -/
def reportedMacros {α : Type} (o : ResolveOut α) : MacroTable :=
  o.table.filter (fun p => !(o.guards.map (fun q => q.1)).contains p.1)

/-- The reported macro list of a run ([] after a fatal error). -/
def reportedOf {α : Type} : Except AnalysisError (ResolveOut α) → MacroTable
  | .ok o => reportedMacros o
  | .error _ => []

/-- The names of the payloads annotated active, in document order. -/
def activeNamesOf (r : Except AnalysisError (ResolveOut Member)) :
    List String :=
  ((annotatedOf r).filter (fun p => p.2)).map (fun p => p.1.name)

/-! ## Declaration Parser support -/

/-- The names of a member list, in declared order. -/
def memberNames : List Member → List String :=
  List.map Member.name

/-- Modelled from the spec: the sum of the declared bitfield widths of a
member list (§4.3; a member without a width contributes 0). -/
def sumBitWidths : List Member → Nat
  | [] => 0
  | m :: ms => (m.bitWidth.getD 0) + sumBitWidths ms

/-- Modelled from the spec: bitfield packing (§4.3): consecutive bitfields
pack left-to-right starting at bit offset `off`; each entry of the result is
`(name, bit offset, width)`. -/
def layoutFrom (off : Nat) : List Member → List (String × Nat × Nat)
  | [] => []
  | m :: ms =>
    let w := m.bitWidth.getD 0
    (m.name, off, w) :: layoutFrom (off + w) ms

/-- Extract the `w`-bit field at bit offset `off` from a raw value. -/
def extractField (v off w : Nat) : Nat := v / 2 ^ off % 2 ^ w

/-- Reconstruct a raw value from the fields extracted from `v` at each
entry's recorded offset and width (the round-trip direction of the bitfield
aliasing property). -/
def reconstructRaw : List (String × Nat × Nat) → Nat → Nat
  | [], _ => 0
  | (_, off, w) :: fs, v => extractField v off w * 2 ^ off + reconstructRaw fs v

mutual

/-- Substitute macro arguments for parameter placeholders throughout a type
(the parse-tree rendering of the spec's textual macro expansion, §4.3). -/
def substTy (σ : List (String × String)) : TypeRef → TypeRef
  | .structTagParam p =>
    match σ.lookup p with
    | some a => .structTag a
    | none => .structTagParam p
  | .ptr t => .ptr (substTy σ t)
  | .arr t e => .arr (substTy σ t) e
  | .anonStruct ms => .anonStruct (substMems σ ms)
  | .anonUnion ms => .anonUnion (substMems σ ms)
  | t => t

/-- Substitute macro arguments throughout a member sequence. -/
def substMems (σ : List (String × String)) : Members → Members
  | .nil => .nil
  | .cons (.mk n t w) ms => .cons (.mk n (substTy σ t) w) (substMems σ ms)

end

/-- A raw (pre-expansion) member line of an aggregate body: an ordinary
member, or a function-like macro invoked in member position together with
the declared member name. -/
inductive RawMember : Type where
  | plain (m : Member)
  | macroInv (name : String) (args : List String) (memberName : String)
  deriving DecidableEq

/-- Modelled from the spec: macro-expanded member blocks (§4.3): a
function-like macro invoked in member position is expanded using the
MacroTable before structural parsing and the expansion parsed as ordinary
members; an undefined (or non-function-like) macro name is reported as
`UnresolvedMemberMacro` and the invocation is retained verbatim as an opaque
member so analysis continues. -/
def expandRawMembers (tbl : MacroTable) :
    List RawMember → List Member × List Diag
  | [] => ([], [])
  | .plain m :: rs =>
    let rest := expandRawMembers tbl rs
    (m :: rest.1, rest.2)
  | .macroInv n args mn :: rs =>
    let rest := expandRawMembers tbl rs
    match lookupM tbl n with
    | some (.fnMembers params body) =>
      (.mk mn (substTy (params.zip args) body) none :: rest.1, rest.2)
    | _ =>
      (.mk mn (.opaqueMacro n args) none :: rest.1,
       .unresolvedMemberMacro n :: rest.2)

/-! ## Symbol Table Builder -/

/-- The kinds a Declaration can have (§3). -/
inductive DeclKind : Type where
  | structK
  | unionK
  | enumK
  | typedefK
  | globalVariableK
  | functionPrototypeK
  deriving DecidableEq

/-- Modelled from the spec: a Declaration (§3), reduced to the parts the
fixture claims exercise: optional name, variant kind, and ordered member
sequence. -/
structure Declaration : Type where
  name : Option String
  kind : DeclKind
  members : List Member
  deriving DecidableEq

mutual

/-- Collect the constants of every inline anonymous enum nested anywhere
inside a type (the promotion the Symbol Table Builder performs, §4.3). -/
def collectTy : TypeRef → List (String × Int)
  | .anonEnum cs => cs
  | .anonStruct ms => collectMems ms
  | .anonUnion ms => collectMems ms
  | .ptr t => collectTy t
  | .arr t _ => collectTy t
  | _ => []

/-- Collect inline anonymous enum constants throughout a member sequence. -/
def collectMems : Members → List (String × Int)
  | .nil => []
  | .cons (.mk _ t _) ms => collectTy t ++ collectMems ms

end

/-- Modelled from the spec: the SymbolTable (§3), reduced to the parts the
fixture claims exercise: the declarations and the enum-constant
namespace. -/
structure SymbolTable : Type where
  decls : List Declaration
  enumConsts : List (String × Int)

/-- Modelled from the spec: the Symbol Table Builder (§4.4): aggregate the
declarations in document order, promoting every nested anonymous enum's
constants into the enum-constant namespace. -/
def buildSymbolTable (ds : List Declaration) : SymbolTable :=
  { decls := ds,
    enumConsts := ds.flatMap (fun d => collectMems (Members.ofList d.members)) }

/-- Look an enum constant up in the symbol table's enum-constant
namespace. -/
def lookupEnumConst (st : SymbolTable) (n : String) : Option Int :=
  (st.enumConsts.filter (fun p => p.1 = n)).head?.map (fun p => p.2)

/-- The type of the named member of a declaration, if present. -/
def memberTypeOf (d : Declaration) (n : String) : Option TypeRef :=
  ((d.members.filter (fun m => m.name = n)).head?).map Member.ty

/-! ## Fixture: src/test_project/include/advanced_features.h -/

/-- Member `unsigned int high;` (advanced_features.h line 41 and 45). -/
def jHigh : Member := .mk "high" (.prim "unsigned int") none

/-- Member `unsigned int low;` (advanced_features.h line 42 and 44). -/
def jLow : Member := .mk "low" (.prim "unsigned int") none

/-- Member `char debug_info[256];` (advanced_features.h line 49). -/
def jDebugInfo : Member := .mk "debug_info" (.arr (.prim "char") (some 256)) none

/-- Member `char release_info[256];` (advanced_features.h line 51). -/
def jReleaseInfo : Member :=
  .mk "release_info" (.arr (.prim "char") (some 256)) none

/-- The condition of the endianness switch,
`CONFIG_BYTE_ORDER == CPU_BIG_ENDIAN` (advanced_features.h line 40). -/
def byteOrderCond : CExpr := .eq (.var "CONFIG_BYTE_ORDER") (.var "CPU_BIG_ENDIAN")

/-- The body template of `TAILQ_ENTRY(type)` (advanced_features.h lines
19-23): an anonymous struct with `struct type *tqe_next` and
`struct type *tqe_prev`, the parameter `type` as a placeholder. -/
def tailqEntryBody : TypeRef :=
  .anonStruct (.ofList
    [.mk "tqe_next" (.ptr (.structTagParam "type")) none,
     .mk "tqe_prev" (.ptr (.structTagParam "type")) none])

/-- The directive stream of advanced_features.h, line numbers from the
source.  The payloads are the conditionally selected members of
`j_uint64_t` (lines 39-53); the file's other code lines (the unconditional
struct, union, enum and typedef bodies) carry no directives and are
transparent to the resolver, so they are not replayed here. -/
def advancedFeaturesLines : List (RLine Member) :=
  [.ifndefD "ADVANCED_FEATURES_H" 1,
   .defineD "ADVANCED_FEATURES_H" .objEmpty 2,
   .defineD "MAX_BUFFER_SIZE" (.obj (.num 1024)) 5,
   .defineD "MIN_BUFFER_SIZE" (.obj (.num 256)) 6,
   .defineD "ENABLE_DEBUG" (.obj (.num 1)) 7,
   .defineD "VERSION_STRING" (.objText "1.0.0") 8,
   .defineD "CPU_BIG_ENDIAN" (.obj (.num 1)) 11,
   .defineD "CPU_LITTLE_ENDIAN" (.obj (.num 0)) 12,
   .defineD "CONFIG_BYTE_ORDER" (.obj (.var "CPU_BIG_ENDIAN")) 13,
   .defineD "SQUARE" (.fnText ["x"] "((x) * (x))") 16,
   .defineD "MAX" (.fnText ["a", "b"] "((a) > (b) ? (a) : (b))") 17,
   .defineD "TAILQ_ENTRY" (.fnMembers ["type"] tailqEntryBody) 19,
   .ifD byteOrderCond 40,
   .payload jHigh,
   .payload jLow,
   .elseD 43,
   .payload jLow,
   .payload jHigh,
   .endifD 46,
   .ifD (.var "_DEBUG") 48,
   .payload jDebugInfo,
   .elseD 50,
   .payload jReleaseInfo,
   .endifD 52,
   .endifD 126]

/-- The member-level line stream of just the endianness switch inside
`j_uint64_t` (advanced_features.h lines 40-46); the resolver is
context-transparent, so the struct body is resolved exactly like file-level
conditionals (§4.1). -/
def jUint64ByteOrderLines : List (RLine Member) :=
  [.ifD byteOrderCond 40,
   .payload jHigh,
   .payload jLow,
   .elseD 43,
   .payload jLow,
   .payload jHigh,
   .endifD 46]

/-- The environment advanced_features.h itself establishes before
`j_uint64_t` (lines 11-13): `CONFIG_BYTE_ORDER == CPU_BIG_ENDIAN` evaluates
true. -/
def envBigEndian : MacroTable :=
  [("CPU_BIG_ENDIAN", .obj (.num 1)),
   ("CPU_LITTLE_ENDIAN", .obj (.num 0)),
   ("CONFIG_BYTE_ORDER", .obj (.var "CPU_BIG_ENDIAN"))]

/-- An environment seeding `CONFIG_BYTE_ORDER` to `CPU_LITTLE_ENDIAN`, under
which the switch condition evaluates false. -/
def envLittleEndian : MacroTable :=
  [("CPU_BIG_ENDIAN", .obj (.num 1)),
   ("CPU_LITTLE_ENDIAN", .obj (.num 0)),
   ("CONFIG_BYTE_ORDER", .obj (.var "CPU_LITTLE_ENDIAN"))]

/-- An environment leaving `CONFIG_BYTE_ORDER` undefined: the identifier
evaluates to 0 and the switch condition is false. -/
def envUndefined : MacroTable :=
  [("CPU_BIG_ENDIAN", .obj (.num 1)),
   ("CPU_LITTLE_ENDIAN", .obj (.num 0))]

/-- An environment in which the caller leaves `CONFIG_BYTE_ORDER`
unresolved: the condition is symbolic and the resolver must keep both
branches as labeled alternatives. -/
def envSymbolic : MacroTable :=
  [("CPU_BIG_ENDIAN", .obj (.num 1)),
   ("CPU_LITTLE_ENDIAN", .obj (.num 0)),
   ("CONFIG_BYTE_ORDER", .symbolic)]

/-- The raw member lines of the `Person` struct (advanced_features.h lines
26-31): `int id;`, `char name[32];`, and the function-like macro invocation
`TAILQ_ENTRY(Person) next;` in member position. -/
def personRawMembers : List RawMember :=
  [.plain (.mk "id" (.prim "int") none),
   .plain (.mk "name" (.arr (.prim "char") (some 32)) none),
   .macroInv "TAILQ_ENTRY" ["Person"] "next"]

/-! ## Fixture: src/test_project/include/test_guards.h -/

/-- The directive stream of test_guards.h, line numbers from the source: six
guard-shaped `#ifndef`/`#define`/`#endif` regions, each defining one real
macro inside. -/
def testGuardsLines : List (RLine Member) :=
  [.ifndefD "TEST_GUARDS_H" 4,
   .defineD "TEST_GUARDS_H" .objEmpty 5,
   .defineD "REAL_MACRO" (.obj (.num 1)) 7,
   .endifD 9,
   .ifndefD "_TEST_GUARDS2_H_" 12,
   .defineD "_TEST_GUARDS2_H_" .objEmpty 13,
   .defineD "REAL_MACRO2" (.obj (.num 2)) 15,
   .endifD 17,
   .ifndefD "TEST_GUARDS3_H_" 20,
   .defineD "TEST_GUARDS3_H_" .objEmpty 21,
   .defineD "REAL_MACRO3" (.obj (.num 3)) 23,
   .endifD 25,
   .ifndefD "TEST_GUARDS_INC" 28,
   .defineD "TEST_GUARDS_INC" .objEmpty 29,
   .defineD "REAL_MACRO4" (.obj (.num 4)) 31,
   .endifD 33,
   .ifndefD "TEST_GUARDS_INCLUDE" 36,
   .defineD "TEST_GUARDS_INCLUDE" .objEmpty 37,
   .defineD "REAL_MACRO5" (.obj (.num 5)) 39,
   .endifD 41,
   .ifndefD "test_guards_h" 44,
   .defineD "test_guards_h" .objEmpty 45,
   .defineD "REAL_MACRO6" (.obj (.num 6)) 47,
   .endifD 49]

/-- The GuardCandidate of the `TEST_GUARDS_H` region (test_guards.h lines
4-9), as the source presents it to the classifier. -/
def candTestGuardsH : GuardCandidate :=
  { openerKind := .ifndefK, openerName := "TEST_GUARDS_H",
    definesInBody := ["TEST_GUARDS_H", "REAL_MACRO"],
    closedByMatchingEndif := true, nameDefinedBefore := false }

/-- The GuardCandidate of the `_TEST_GUARDS2_H_` region (lines 12-17). -/
def candTestGuards2H : GuardCandidate :=
  { openerKind := .ifndefK, openerName := "_TEST_GUARDS2_H_",
    definesInBody := ["_TEST_GUARDS2_H_", "REAL_MACRO2"],
    closedByMatchingEndif := true, nameDefinedBefore := false }

/-- The GuardCandidate of the `TEST_GUARDS3_H_` region (lines 20-25). -/
def candTestGuards3H : GuardCandidate :=
  { openerKind := .ifndefK, openerName := "TEST_GUARDS3_H_",
    definesInBody := ["TEST_GUARDS3_H_", "REAL_MACRO3"],
    closedByMatchingEndif := true, nameDefinedBefore := false }

/-- The GuardCandidate of the `TEST_GUARDS_INC` region (lines 28-33). -/
def candTestGuardsInc : GuardCandidate :=
  { openerKind := .ifndefK, openerName := "TEST_GUARDS_INC",
    definesInBody := ["TEST_GUARDS_INC", "REAL_MACRO4"],
    closedByMatchingEndif := true, nameDefinedBefore := false }

/-- The GuardCandidate of the `TEST_GUARDS_INCLUDE` region (lines 36-41). -/
def candTestGuardsInclude : GuardCandidate :=
  { openerKind := .ifndefK, openerName := "TEST_GUARDS_INCLUDE",
    definesInBody := ["TEST_GUARDS_INCLUDE", "REAL_MACRO5"],
    closedByMatchingEndif := true, nameDefinedBefore := false }

/-- The GuardCandidate of the lowercase `test_guards_h` region (lines
44-49). -/
def candTestGuardsLower : GuardCandidate :=
  { openerKind := .ifndefK, openerName := "test_guards_h",
    definesInBody := ["test_guards_h", "REAL_MACRO6"],
    closedByMatchingEndif := true, nameDefinedBefore := false }

/-! ## Fixture: src/test_project/include/test_behavior.h -/

/-- The directive stream of test_behavior.h, line numbers from the source: a
standard guard, a lowercase guard, and the incorrect inverted pattern
`#ifdef TEST_BEHAVIOR_INCORRECT` / `#define TEST_BEHAVIOR_INCORRECT`. -/
def testBehaviorLines : List (RLine Member) :=
  [.ifndefD "TEST_BEHAVIOR_H" 4,
   .defineD "TEST_BEHAVIOR_H" .objEmpty 5,
   .defineD "BEHAVIOR_REAL_MACRO" (.obj (.num 100)) 8,
   .defineD "BEHAVIOR_ADD" (.fnText ["x", "y"] "((x) + (y))") 11,
   .endifD 13,
   .ifndefD "test_behavior_h" 16,
   .defineD "test_behavior_h" .objEmpty 17,
   .defineD "BEHAVIOR_ANOTHER_REAL_MACRO" (.obj (.num 200)) 19,
   .endifD 21,
   .ifdefD "TEST_BEHAVIOR_INCORRECT" 24,
   .defineD "TEST_BEHAVIOR_INCORRECT" .objEmpty 25,
   .defineD "BEHAVIOR_YET_ANOTHER_REAL_MACRO" (.obj (.num 300)) 27,
   .endifD 29]

/-- The GuardCandidate of the incorrect pattern (test_behavior.h lines
24-29): opener `#ifdef TEST_BEHAVIOR_INCORRECT`, `#define
TEST_BEHAVIOR_INCORRECT` inside the positive branch, matching `#endif`. -/
def candBehaviorIncorrect : GuardCandidate :=
  { openerKind := .ifdefK, openerName := "TEST_BEHAVIOR_INCORRECT",
    definesInBody := ["TEST_BEHAVIOR_INCORRECT",
                      "BEHAVIOR_YET_ANOTHER_REAL_MACRO"],
    closedByMatchingEndif := true, nameDefinedBefore := false }

/-! ## Fixture: src/test_project/include/embedded_enum_test.h -/

/-- The sixteen 2-bit sub-fields of the `MODER_b` bitfield view
(embedded_enum_test.h lines 18-36; in the source each is
`__IOM uint32_t MODERi : 2;`, `__IOM` being the `volatile` qualifier
macro of line 7, transparent to layout). -/
def moderBMembers : List Member :=
  [.mk "MODER0" (.prim "uint32_t") (some 2),
   .mk "MODER1" (.prim "uint32_t") (some 2),
   .mk "MODER2" (.prim "uint32_t") (some 2),
   .mk "MODER3" (.prim "uint32_t") (some 2),
   .mk "MODER4" (.prim "uint32_t") (some 2),
   .mk "MODER5" (.prim "uint32_t") (some 2),
   .mk "MODER6" (.prim "uint32_t") (some 2),
   .mk "MODER7" (.prim "uint32_t") (some 2),
   .mk "MODER8" (.prim "uint32_t") (some 2),
   .mk "MODER9" (.prim "uint32_t") (some 2),
   .mk "MODER10" (.prim "uint32_t") (some 2),
   .mk "MODER11" (.prim "uint32_t") (some 2),
   .mk "MODER12" (.prim "uint32_t") (some 2),
   .mk "MODER13" (.prim "uint32_t") (some 2),
   .mk "MODER14" (.prim "uint32_t") (some 2),
   .mk "MODER15" (.prim "uint32_t") (some 2)]

/-- The two sibling members of the first anonymous union of `GPIOF_Type`
(embedded_enum_test.h lines 14-37): the raw register `MODER` and the
bitfield view `MODER_b`. -/
def gpioModerUnionMembers : List Member :=
  [.mk "MODER" (.prim "uint32_t") none,
   .mk "MODER_b" (.anonStruct (.ofList moderBMembers)) none]

/-- The first anonymous union of `GPIOF_Type` itself. -/
def gpioModerUnion : TypeRef := .anonUnion (.ofList gpioModerUnionMembers)

/-- The `UserWithEmbeddedEnum` struct (embedded_enum_test.h lines 700-707):
`int id;`, the anonymous embedded
`enum { STATUS_ACTIVE = 1, STATUS_INACTIVE = 0 } status;`, and
`char name[50];`. -/
def userWithEmbeddedEnum : Declaration :=
  { name := some "UserWithEmbeddedEnum", kind := .structK,
    members :=
      [.mk "id" (.prim "int") none,
       .mk "status"
         (.anonEnum [("STATUS_ACTIVE", 1), ("STATUS_INACTIVE", 0)]) none,
       .mk "name" (.arr (.prim "char") (some 50)) none] }

/-! ## Claims -/

/-- C1: for the endianness-switch struct `j_uint64_t`, under an environment
in which `CONFIG_BYTE_ORDER == CPU_BIG_ENDIAN` evaluates true the active
member order is `[high, low]`; under an environment in which it is false or
`CONFIG_BYTE_ORDER` is undefined, it is `[low, high]`; and when the macro's
value is left unresolved, a single parse records both orders as labeled
alternatives — all branches recorded, exactly one branch taken per frame
under each concrete environment. -/
theorem claim_C1_conditional_member_alternation :
    activeNamesOf (resolve "advanced_features" envBigEndian
      jUint64ByteOrderLines) = ["high", "low"]
    ∧ activeNamesOf (resolve "advanced_features" envLittleEndian
        jUint64ByteOrderLines) = ["low", "high"]
    ∧ activeNamesOf (resolve "advanced_features" envUndefined
        jUint64ByteOrderLines) = ["low", "high"]
    ∧ recordsOf (resolve "advanced_features" envBigEndian
        jUint64ByteOrderLines) =
      [{ label := .ifL byteOrderCond, loc := 40,
         branches := [{ tag := .pos, status := .t, payloads := [jHigh, jLow] },
                      { tag := .elseB, status := .f,
                        payloads := [jLow, jHigh] }] }]
    ∧ recordsOf (resolve "advanced_features" envLittleEndian
        jUint64ByteOrderLines) =
      [{ label := .ifL byteOrderCond, loc := 40,
         branches := [{ tag := .pos, status := .f, payloads := [jHigh, jLow] },
                      { tag := .elseB, status := .t,
                        payloads := [jLow, jHigh] }] }]
    ∧ recordsOf (resolve "advanced_features" envUndefined
        jUint64ByteOrderLines) =
      [{ label := .ifL byteOrderCond, loc := 40,
         branches := [{ tag := .pos, status := .f, payloads := [jHigh, jLow] },
                      { tag := .elseB, status := .t,
                        payloads := [jLow, jHigh] }] }]
    ∧ recordsOf (resolve "advanced_features" envSymbolic
        jUint64ByteOrderLines) =
      [{ label := .ifL byteOrderCond, loc := 40,
         branches := [{ tag := .pos, status := .unknown,
                        payloads := [jHigh, jLow] },
                      { tag := .elseB, status := .unknown,
                        payloads := [jLow, jHigh] }] }] :=
  ⟨rfl, rfl, rfl, rfl, rfl, rfl, rfl⟩

/-- C2: the Guard Classifier classifies the inverted triple `#ifdef NAME` /
`#define NAME` inside the positive branch / matching `#endif` as
`IsRealMacro` for every NAME (structure dominates name), in particular for
the `TEST_BEHAVIOR_INCORRECT` fixture region, which accordingly is not among
the guards of a test_behavior.h run. -/
theorem claim_C2_structural_precedence :
    (∀ (name : String) (others : List String) (ndb : Bool),
      classifyGuard
        { openerKind := .ifdefK, openerName := name,
          definesInBody := name :: others, closedByMatchingEndif := true,
          nameDefinedBefore := ndb } = .IsRealMacro)
    ∧ classifyGuard candBehaviorIncorrect = .IsRealMacro
    ∧ guardNamesOf (resolve "test_behavior" [] testBehaviorLines) =
        ["TEST_BEHAVIOR_H", "test_behavior_h"] :=
  ⟨fun _ _ _ => rfl, rfl, rfl⟩

/-- C3: for the 32-bit register union of `GPIOF_Type`, the sum of the
declared bitfield widths of the `MODER_b` view's sixteen 2-bit sub-fields is
32, the raw `MODER` field and the `MODER_b` view are retained as the two
sibling members of the same union, and reconstructing a raw 32-bit value
from the sixteen sub-fields' recorded offsets and widths reproduces the same
32 bits. -/
theorem claim_C3_bitfield_aliasing :
    sumBitWidths moderBMembers = 32
    ∧ memberNames gpioModerUnionMembers = ["MODER", "MODER_b"]
    ∧ ∀ v : Nat, v < 2 ^ 32 →
        reconstructRaw (layoutFrom 0 moderBMembers) v = v := by
  refine ⟨rfl, rfl, fun v hv => ?_⟩
  have hlay : layoutFrom 0 moderBMembers =
      [("MODER0", 0, 2), ("MODER1", 2, 2), ("MODER2", 4, 2),
       ("MODER3", 6, 2), ("MODER4", 8, 2), ("MODER5", 10, 2),
       ("MODER6", 12, 2), ("MODER7", 14, 2), ("MODER8", 16, 2),
       ("MODER9", 18, 2), ("MODER10", 20, 2), ("MODER11", 22, 2),
       ("MODER12", 24, 2), ("MODER13", 26, 2), ("MODER14", 28, 2),
       ("MODER15", 30, 2)] := rfl
  rw [hlay]
  simp only [reconstructRaw, extractField]
  norm_num
  omega

/-- Witness for C3: the round trip at the concrete raw value 0xDEADBEEF. -/
theorem claim_C3_witness :
    3735928559 < 2 ^ 32
    ∧ reconstructRaw (layoutFrom 0 moderBMembers) 3735928559 = 3735928559 :=
  ⟨by norm_num,
   claim_C3_bitfield_aliasing.2.2 3735928559 (by norm_num)⟩

/-- C4: whenever processing a whole input stream leaves a conditional frame
still open (an `#if`/`#ifdef`/`#ifndef` with no matching `#endif` before end
of input), analysis fails with `UnterminatedConditional` reported at the
open frame's opening-directive location, and no output (no partial
SymbolTable) is produced for that file. -/
theorem claim_C4_unterminated_conditional (α : Type) (base : String)
    (seed : MacroTable) (lines : List (RLine α)) (st : RState α)
    (fr : Frame α) (frs : List (Frame α))
    (h₁ : runAll base (initState seed) lines = .ok st)
    (h₂ : st.stack = fr :: frs) :
    resolve base seed lines = .error (.unterminatedConditional fr.loc)
    ∧ ∀ out : ResolveOut α, resolve base seed lines ≠ .ok out := by
  have hmain : resolve base seed lines =
      .error (.unterminatedConditional fr.loc) := by
    unfold resolve
    rw [h₁]
    show finishRun st = _
    unfold finishRun
    rw [h₂]
  exact ⟨hmain, fun out hout => by
    rw [hmain] at hout
    exact Except.noConfusion hout⟩

/-- Witness for C4: a stream ending in an open `#if` at line 5 fails with
`UnterminatedConditional` at line 5. -/
theorem claim_C4_witness :
    resolve "advanced_features" []
      [RLine.ifD (CExpr.var "X") 5, RLine.payload jHigh] =
      Except.error (AnalysisError.unterminatedConditional 5) :=
  (claim_C4_unterminated_conditional Member "advanced_features" []
    [RLine.ifD (CExpr.var "X") 5, RLine.payload jHigh] _ _ _ rfl rfl).1

/-- C5: every structurally guard-shaped candidate is classified `IsGuard`
regardless of name shape (name shape is advisory only), and in particular
each of the six guard candidates of test_guards.h — `TEST_GUARDS_H`,
`_TEST_GUARDS2_H_`, `TEST_GUARDS3_H_`, `TEST_GUARDS_INC`,
`TEST_GUARDS_INCLUDE`, and the lowercase `test_guards_h` — classifies
`IsGuard`, as a full run over the fixture confirms. -/
theorem claim_C5_name_shape_breadth :
    (∀ c : GuardCandidate,
      structurallyGuardShaped c = true → classifyGuard c = .IsGuard)
    ∧ classifyGuard candTestGuardsH = .IsGuard
    ∧ classifyGuard candTestGuards2H = .IsGuard
    ∧ classifyGuard candTestGuards3H = .IsGuard
    ∧ classifyGuard candTestGuardsInc = .IsGuard
    ∧ classifyGuard candTestGuardsInclude = .IsGuard
    ∧ classifyGuard candTestGuardsLower = .IsGuard
    ∧ guardNamesOf (resolve "test_guards" [] testGuardsLines) =
        ["TEST_GUARDS_H", "_TEST_GUARDS2_H_", "TEST_GUARDS3_H_",
         "TEST_GUARDS_INC", "TEST_GUARDS_INCLUDE", "test_guards_h"] :=
  ⟨fun c h => by simp [classifyGuard, h],
   rfl, rfl, rfl, rfl, rfl, rfl, rfl⟩

/-- Witness for C5: the `TEST_GUARDS_H` candidate is structurally
guard-shaped and classifies `IsGuard`. -/
theorem claim_C5_witness :
    structurallyGuardShaped candTestGuardsH = true
    ∧ classifyGuard candTestGuardsH = .IsGuard :=
  ⟨rfl, claim_C5_name_shape_breadth.1 candTestGuardsH rfl⟩

/-- C6: the function-like macro `TAILQ_ENTRY(Person)` invoked in member
position inside `Person` is expanded through the MacroTable built from
advanced_features.h before structural parsing, the expansion parsing as an
ordinary anonymous-struct member with `tqe_next`/`tqe_prev` pointer fields;
with the macro undefined, the recoverable `UnresolvedMemberMacro` diagnostic
is reported and the invocation is retained verbatim as an opaque member
while the remaining members still parse. -/
theorem claim_C6_member_macro_expansion :
    expandRawMembers
        (tableOf (resolve "advanced_features" [] advancedFeaturesLines))
        personRawMembers =
      ([.mk "id" (.prim "int") none,
        .mk "name" (.arr (.prim "char") (some 32)) none,
        .mk "next"
          (.anonStruct (.ofList
            [.mk "tqe_next" (.ptr (.structTag "Person")) none,
             .mk "tqe_prev" (.ptr (.structTag "Person")) none])) none],
       [])
    ∧ expandRawMembers [] personRawMembers =
      ([.mk "id" (.prim "int") none,
        .mk "name" (.arr (.prim "char") (some 32)) none,
        .mk "next" (.opaqueMacro "TAILQ_ENTRY" ["Person"]) none],
       [.unresolvedMemberMacro "TAILQ_ENTRY"]) :=
  ⟨rfl, rfl⟩

/-- C7: the struct `UserWithEmbeddedEnum` exposes its member `status` typed
as an inline anonymous enum whose constant set is exactly
`STATUS_ACTIVE = 1`, `STATUS_INACTIVE = 0`, and building the symbol table
promotes exactly those constants into the enum-constant namespace, where
both are reachable by lookup. -/
theorem claim_C7_anonymous_enum_promotion :
    memberTypeOf userWithEmbeddedEnum "status" =
      some (.anonEnum [("STATUS_ACTIVE", 1), ("STATUS_INACTIVE", 0)])
    ∧ lookupEnumConst (buildSymbolTable [userWithEmbeddedEnum])
        "STATUS_ACTIVE" = some 1
    ∧ lookupEnumConst (buildSymbolTable [userWithEmbeddedEnum])
        "STATUS_INACTIVE" = some 0
    ∧ (buildSymbolTable [userWithEmbeddedEnum]).enumConsts =
        [("STATUS_ACTIVE", 1), ("STATUS_INACTIVE", 0)] :=
  ⟨rfl, rfl, rfl, rfl⟩

/-- C8: for every macro name and pair of bodies, a file consisting of two
`#define` directives for that name leaves the later body in the MacroTable
(last-wins); a redefinition with a different body emits exactly one
`RedefinitionWarning` while analysis continues non-fatally, and a
redefinition with an identical body is a no-op emitting no warning. -/
theorem claim_C8_redefinition_last_wins (n : String) (v₁ v₂ : MacroVal)
    (loc₁ loc₂ : Nat) :
    (resolve "advanced_features" []
        [RLine.defineD n v₁ loc₁, RLine.defineD n v₂ loc₂]
      : Except AnalysisError (ResolveOut Member)).map
        (fun o => (o.table, o.diags)) =
      .ok ([(n, v₂)], if v₁ = v₂ then [] else [.redefinitionWarning n]) := by
  by_cases h : v₁ = v₂
  · subst h
    simp [resolve, runAll, step, initState, activeAll, defineMacro, lookupM,
      replaceM, noteDefine, finishRun, mkOut, Except.map]
  · simp [resolve, runAll, step, initState, activeAll, defineMacro, lookupM,
      replaceM, noteDefine, finishRun, mkOut, Except.map, h]

/-- C9: in `#if` evaluation every identifier absent from the MacroTable
evaluates to 0; consequently analyzing advanced_features.h with no seed
macros leaves `_DEBUG` out of the table, makes `#if _DEBUG` inactive, marks
`release_info` the active member of `j_uint64_t`, and records `debug_info`
only as the inactive alternative of that conditional. -/
theorem claim_C9_undefined_identifier_is_zero :
    (∀ (fuel : Nat) (tbl : MacroTable) (x : String),
      lookupM tbl x = none → evalE (fuel + 1) tbl (.var x) = some 0)
    ∧ lookupM (tableOf (resolve "advanced_features" [] advancedFeaturesLines))
        "_DEBUG" = none
    ∧ annotatedOf (resolve "advanced_features" [] advancedFeaturesLines) =
        [(jHigh, true), (jLow, true), (jLow, false), (jHigh, false),
         (jDebugInfo, false), (jReleaseInfo, true)]
    ∧ recordsOf (resolve "advanced_features" [] advancedFeaturesLines) =
        [{ label := .ifL byteOrderCond, loc := 40,
           branches := [{ tag := .pos, status := .t,
                          payloads := [jHigh, jLow] },
                        { tag := .elseB, status := .f,
                          payloads := [jLow, jHigh] }] },
         { label := .ifL (.var "_DEBUG"), loc := 48,
           branches := [{ tag := .pos, status := .f,
                          payloads := [jDebugInfo] },
                        { tag := .elseB, status := .t,
                          payloads := [jReleaseInfo] }] },
         { label := .ifndefL "ADVANCED_FEATURES_H", loc := 1,
           branches := [{ tag := .pos, status := .t, payloads := [] }] }] :=
  ⟨fun fuel tbl x h => by simp [evalE, h], rfl, rfl, rfl⟩

/-- Witness for C9: the identifier NOT_IN_TABLE over the empty table. -/
theorem claim_C9_witness :
    lookupM [] "NOT_IN_TABLE" = none
    ∧ evalE 1 [] (CExpr.var "NOT_IN_TABLE") = some 0 :=
  ⟨rfl, claim_C9_undefined_identifier_is_zero.1 0 [] "NOT_IN_TABLE" rfl⟩

/-- C10: analyzing test_guards.h with no seed macros suppresses only the six
guard names from the reported macro list: the reported list is exactly
`REAL_MACRO = 1` through `REAL_MACRO6 = 6` — all of them still present in
the final macro table even though each was defined inside a suppressed
guard region — while each of the six guard names is absent from the
reported list. -/
theorem claim_C10_guard_suppression_frame_effect :
    reportedOf (resolve "test_guards" [] testGuardsLines) =
      [("REAL_MACRO", .obj (.num 1)), ("REAL_MACRO2", .obj (.num 2)),
       ("REAL_MACRO3", .obj (.num 3)), ("REAL_MACRO4", .obj (.num 4)),
       ("REAL_MACRO5", .obj (.num 5)), ("REAL_MACRO6", .obj (.num 6))]
    ∧ lookupM (tableOf (resolve "test_guards" [] testGuardsLines))
        "REAL_MACRO" = some (.obj (.num 1))
    ∧ lookupM (tableOf (resolve "test_guards" [] testGuardsLines))
        "REAL_MACRO2" = some (.obj (.num 2))
    ∧ lookupM (tableOf (resolve "test_guards" [] testGuardsLines))
        "REAL_MACRO3" = some (.obj (.num 3))
    ∧ lookupM (tableOf (resolve "test_guards" [] testGuardsLines))
        "REAL_MACRO4" = some (.obj (.num 4))
    ∧ lookupM (tableOf (resolve "test_guards" [] testGuardsLines))
        "REAL_MACRO5" = some (.obj (.num 5))
    ∧ lookupM (tableOf (resolve "test_guards" [] testGuardsLines))
        "REAL_MACRO6" = some (.obj (.num 6))
    ∧ ((reportedOf (resolve "test_guards" [] testGuardsLines)).map
        (fun p => p.1)).contains "TEST_GUARDS_H" = false
    ∧ ((reportedOf (resolve "test_guards" [] testGuardsLines)).map
        (fun p => p.1)).contains "_TEST_GUARDS2_H_" = false
    ∧ ((reportedOf (resolve "test_guards" [] testGuardsLines)).map
        (fun p => p.1)).contains "TEST_GUARDS3_H_" = false
    ∧ ((reportedOf (resolve "test_guards" [] testGuardsLines)).map
        (fun p => p.1)).contains "TEST_GUARDS_INC" = false
    ∧ ((reportedOf (resolve "test_guards" [] testGuardsLines)).map
        (fun p => p.1)).contains "TEST_GUARDS_INCLUDE" = false
    ∧ ((reportedOf (resolve "test_guards" [] testGuardsLines)).map
        (fun p => p.1)).contains "test_guards_h" = false :=
  ⟨rfl, rfl, rfl, rfl, rfl, rfl, rfl, rfl, rfl, rfl, rfl, rfl, rfl⟩

end CDM
